import Mathlib

/-!
Verification of the Text-Fx frame synthesis and timing allocation engine
(src/code.ts). Text is modelled as `List Char` (JS strings), JS numbers as
exact rationals `ℚ`. The host-side Figma node objects are modelled by the
fields the engine actually writes: visible characters, opacity and font
size.
-/

namespace TextFx

/-- Animation styles supported by the plugin (the `style` string field of
`AnimationSettings` in code.ts, restricted to the closed set the UI can
send). -/
inductive Style
  | typing
  | fadeIn
  | fadeOut
  | slideLeft
  | slideRight
  | slideUp
  | slideDown
  | scale
  | rotate
  deriving DecidableEq

/-- Reveal unit (the `typeBy` field): per-letter or per-word. -/
inductive TypeBy
  | letter
  | word
  deriving DecidableEq

/-- Animation direction (the `direction` field). -/
inductive Direction
  | forward
  | backwards
  deriving DecidableEq

/-- The `AnimationSettings` record from the plugin message. The duration is
in milliseconds. The color string plays no role in frame content or
timing. -/
structure AnimationSettings where
  style : Style
  typeBy : TypeBy
  direction : Direction
  duration : ℚ
  color : List Char
  deriving DecidableEq

/-- Auxiliary for JS `text.split(' ')`: returns the first word and the list
of remaining words. -/
def splitSpaceAux : List Char → List Char × List (List Char)
  | [] => ([], [])
  | c :: rest =>
    let p := splitSpaceAux rest
    if c = ' ' then ([], p.1 :: p.2) else (c :: p.1, p.2)

/-- JS `text.split(' ')`: splits on every single space character; the empty
string yields a single empty word, and consecutive spaces yield empty
words. -/
def splitSpace (s : List Char) : List (List Char) :=
  (splitSpaceAux s).1 :: (splitSpaceAux s).2

/-- JS `words.join(' ')`. -/
def joinSpace : List (List Char) → List Char
  | [] => []
  | w :: ws =>
    match ws with
    | [] => w
    | _ :: _ => w ++ ' ' :: joinSpace ws

/-- JS `String.trim` on the characters that can occur here (whitespace at
both ends is removed). -/
def jsTrim (s : List Char) : List Char :=
  let white := fun c => c == ' ' || c == '\t' || c == '\n' || c == '\r'
  ((s.dropWhile white).reverse.dropWhile white).reverse

/-- `calculateFrameCount` from code.ts. Every style except `scale` uses the
same expression; the duration argument is accepted and ignored exactly as
in the source. The source switch has a default branch for unknown style
strings, unreachable for the closed style set. -/
def calculateFrameCount (style : Style) (typeBy : TypeBy) (duration : ℚ)
    (text : List Char) : Nat :=
  match style with
  | .scale => 2
  | .typing | .fadeIn | .fadeOut | .slideLeft | .slideRight | .slideUp
  | .slideDown | .rotate =>
    match typeBy with
    | .letter => text.length + 1
    | .word => (splitSpace text).length + 1

/-- The fields of the created Figma text node that the animation logic
writes: visible characters, opacity and font size. A fresh text node has
opacity 1; its initial font size is irrelevant because every style path
assigns one. -/
structure FrameNode where
  characters : List Char
  opacity : ℚ
  fontSize : ℚ
  deriving DecidableEq

/-- `applyTypingEffect` from code.ts, returning the characters written to
the text node. JS `substring(0, k)` is `take k`; `substring(max(0, n-k))`
is `drop (n - k)` with truncated subtraction. -/
def applyTypingEffect (text : List Char) (typeBy : TypeBy) (frameIndex : Nat)
    (direction : Direction) : List Char :=
  match typeBy with
  | .letter =>
    match direction with
    | .forward => text.take frameIndex
    | .backwards =>
      if frameIndex = 0 then []
      else text.drop (text.length - frameIndex)
  | .word =>
    let words := splitSpace text
    if frameIndex = 0 then []
    else
      match direction with
      | .forward => joinSpace (words.take frameIndex)
      | .backwards => joinSpace (words.drop (words.length - frameIndex))

/-- `applyLetterOpacity` from code.ts. The direction argument is unused in
the source as well. -/
def applyLetterOpacity (text : List Char) (frameIndex totalFrames : Nat)
    (direction : Direction) : ℚ :=
  let progress : ℚ := (frameIndex : ℚ) / ((totalFrames : ℚ) - 1)
  let letterProgress : ℚ := min (progress * text.length) (text.length : ℚ)
  if (frameIndex : ℚ) ≤ letterProgress then 1 else 0.3

/-- `applySlideEffect` from code.ts, returning the characters (the node
characters were set to the full text just before the call; the letter unit
replaces them with a progress-proportional slice, the word unit leaves
them unchanged). -/
def applySlideEffect (text : List Char) (style : Style) (progress : ℚ)
    (typeBy : TypeBy) : List Char :=
  match typeBy with
  | .letter => text.take (⌊progress * (text.length : ℚ)⌋).toNat
  | .word => text

/-- `applyLetterRotateEffect` from code.ts: sets font size 16, a spiral
character reveal and an opacity curve per direction. -/
def applyLetterRotateEffect (text : List Char) (frameIndex totalFrames : Nat)
    (direction : Direction) : FrameNode :=
  let progress : ℚ := (frameIndex : ℚ) / ((totalFrames : ℚ) - 1)
  let n := text.length
  let centerIndex := n / 2
  match direction with
  | .forward =>
    if progress < 0.5 then
      let visibleCount : ℤ := ⌊progress * 2 * (n : ℚ)⌋
      let visibleText := (List.range n).map (fun i =>
        if ((Nat.dist i centerIndex : ℤ) * 2 ≤ visibleCount) then text.getD i ' '
        else ' ')
      { characters := visibleText, opacity := 0.3 + progress * 1.4,
        fontSize := 16 }
    else
      let fillProgress := (progress - 0.5) * 2
      let totalVisible : ℤ :=
        ⌊0.5 * (n : ℚ) + fillProgress * 0.5 * (n : ℚ)⌋
      let visibleText := (List.range n).map (fun i =>
        if ((((i + n / 2) % n : Nat) : ℤ) < totalVisible) then text.getD i ' '
        else ' ')
      { characters := visibleText,
        opacity := min 1 (0.8 + fillProgress * 0.4), fontSize := 16 }
  | .backwards =>
    let reverseProgress := 1 - progress
    if 0.5 < reverseProgress then
      { characters := text, opacity := reverseProgress, fontSize := 16 }
    else
      let fadeProgress := reverseProgress * 2
      let visibleText := (List.range n).map (fun i =>
        if ((Nat.dist i centerIndex : ℚ) * 2 ≤ fadeProgress * (n : ℚ)) then
          text.getD i ' '
        else ' ')
      { characters := visibleText, opacity := max 0.2 fadeProgress,
        fontSize := 16 }

/-- `applyWordRotateEffect` from code.ts: sets font size 16, a spiral word
reveal and an opacity curve per direction. -/
def applyWordRotateEffect (text : List Char) (frameIndex totalFrames : Nat)
    (direction : Direction) : FrameNode :=
  let progress : ℚ := (frameIndex : ℚ) / ((totalFrames : ℚ) - 1)
  let words := splitSpace text
  let centerIndex := words.length / 2
  match direction with
  | .forward =>
    if progress < 0.3 then
      let visibleWords := words.enum.map (fun p =>
        if p.1 = centerIndex then p.2 else [])
      { characters := jsTrim (joinSpace visibleWords),
        opacity := 0.4 + progress * 2, fontSize := 16 }
    else if progress < 0.7 then
      let spiralProgress := (progress - 0.3) / 0.4
      let maxDistance := words.length / 2
      let currentDistance : ℤ := ⌊spiralProgress * (maxDistance : ℚ)⌋
      let visibleWords := words.enum.map (fun p =>
        if ((Nat.dist p.1 centerIndex : ℤ) ≤ currentDistance) then p.2 else [])
      { characters := jsTrim (joinSpace visibleWords),
        opacity := 0.6 + spiralProgress * 0.3, fontSize := 16 }
    else
      { characters := text, opacity := min 1 (0.9 + (progress - 0.7) * 2),
        fontSize := 16 }
  | .backwards =>
    let reverseProgress := 1 - progress
    if 0.7 < reverseProgress then
      { characters := text, opacity := reverseProgress + 0.1, fontSize := 16 }
    else if 0.3 < reverseProgress then
      let spiralProgress := (reverseProgress - 0.3) / 0.4
      let maxDistance := words.length / 2
      let keepDistance : ℤ := ⌊spiralProgress * (maxDistance : ℚ)⌋
      let visibleWords := words.enum.map (fun p =>
        if ((Nat.dist p.1 centerIndex : ℤ) ≤ keepDistance) then p.2 else [])
      { characters := jsTrim (joinSpace visibleWords),
        opacity := max 0.3 (spiralProgress * 1.2), fontSize := 16 }
    else
      let finalProgress := reverseProgress / 0.3
      if 0.5 < finalProgress ∧ 0 < words.length then
        { characters := words.getD (words.length / 2) [],
          opacity := finalProgress, fontSize := 16 }
      else
        { characters := [], opacity := 0, fontSize := 16 }

/-- `createTextNodeForFrame` from code.ts: builds the text node for one
frame. A fresh node starts with opacity 1; every path assigns the font
size (the final step sets 16 for the styles that did not set their own). -/
def createTextNodeForFrame (text : List Char) (animation : AnimationSettings)
    (frameIndex totalFrames : Nat) : FrameNode :=
  let progress : ℚ := (frameIndex : ℚ) / ((totalFrames : ℚ) - 1)
  let node0 : FrameNode := { characters := [], opacity := 1, fontSize := 12 }
  let node : FrameNode :=
    match animation.style with
    | .typing =>
      { node0 with
        characters :=
          applyTypingEffect text animation.typeBy frameIndex
            animation.direction }
    | .fadeIn =>
      { node0 with
        characters := text,
        opacity :=
          match animation.typeBy with
          | .letter =>
            applyLetterOpacity text frameIndex totalFrames animation.direction
          | .word => min (progress * 1.2) 1 }
    | .fadeOut =>
      { node0 with
        characters := text,
        opacity :=
          match animation.typeBy with
          | .letter =>
            applyLetterOpacity text (totalFrames - frameIndex - 1) totalFrames
              animation.direction
          | .word => max (1 - progress * 1.2) 0 }
    | .scale =>
      let baseFontSize : ℚ := 16
      match animation.direction with
      | .forward =>
        if frameIndex = 0 then
          { node0 with characters := text, opacity := 0, fontSize := 1 }
        else
          { node0 with characters := text, opacity := 1, fontSize := baseFontSize }
      | .backwards =>
        if frameIndex = 0 then
          { node0 with characters := text, opacity := 1, fontSize := baseFontSize }
        else
          { node0 with characters := text, opacity := 0, fontSize := 1 }
    | .slideLeft | .slideRight | .slideUp | .slideDown =>
      { node0 with
        characters :=
          applySlideEffect text animation.style progress animation.typeBy }
    | .rotate =>
      match animation.typeBy with
      | .word =>
        applyWordRotateEffect text frameIndex totalFrames animation.direction
      | .letter =>
        applyLetterRotateEffect text frameIndex totalFrames animation.direction
  if animation.style ≠ Style.scale ∧ animation.style ≠ Style.rotate then
    { node with fontSize := 16 }
  else node

/-- `createAnimationVariants` from code.ts: one frame node per frame index
in ascending order. -/
def createAnimationVariants (text : List Char) (animation : AnimationSettings) :
    List FrameNode :=
  let frameCount :=
    calculateFrameCount animation.style animation.typeBy animation.duration text
  (List.range frameCount).map (fun i =>
    createTextNodeForFrame text animation i frameCount)

/-- Transition kinds the engine emits (`SMART_ANIMATE` and `DISSOLVE`);
typing cuts use no transition object at all. -/
inductive TransitionKind
  | smartAnimate
  | dissolve
  deriving DecidableEq

/-- Easing kinds the engine emits. -/
inductive EasingKind
  | easeOut
  | linear
  deriving DecidableEq

/-- A Figma transition object: kind, duration in seconds and easing. -/
structure Transition where
  kind : TransitionKind
  duration : ℚ
  easing : EasingKind
  deriving DecidableEq

/-- One reaction registered on a variant: an AFTER_TIMEOUT trigger with its
timeout in seconds and a CHANGE_TO action toward the destination variant,
with an optional transition (none means an instant cut). Variants are
identified by their frame index. -/
structure Reaction where
  fromFrame : Nat
  destinationId : Nat
  timeout : ℚ
  transition : Option Transition
  deriving DecidableEq

/-- `setupSimplePrototyping` from code.ts: the reactions registered on the
variants, in ascending frame order. With fewer than 2 variants the source
logs and returns without registering anything. For scale the last variant
gets no reaction (terminal); otherwise every variant points at the next
one modulo the frame count. -/
def setupSimplePrototyping (frameCount : Nat) (animation : AnimationSettings) :
    List Reaction :=
  if frameCount < 2 then []
  else
    let totalDuration := animation.duration
    let timePerTransition := totalDuration / (frameCount : ℚ)
    let isScaleAnimation := animation.style = Style.scale
    let isTypingAnimation := animation.style = Style.typing
    (List.range frameCount).filterMap (fun i =>
      if isScaleAnimation ∧ i = frameCount - 1 then none
      else
        let next := (i + 1) % frameCount
        if isScaleAnimation then
          some { fromFrame := i, destinationId := next, timeout := 0.01,
                 transition := some { kind := TransitionKind.smartAnimate,
                                      duration := totalDuration / 1000,
                                      easing := EasingKind.easeOut } }
        else if isTypingAnimation then
          some { fromFrame := i, destinationId := next,
                 timeout := timePerTransition / 1000, transition := none }
        else
          let transitionDuration := max (timePerTransition * 0.2) 50 / 1000
          some { fromFrame := i, destinationId := next,
                 timeout := max (timePerTransition / 1000 - transitionDuration)
                              0.01,
                 transition := some { kind := TransitionKind.dissolve,
                                      duration := transitionDuration,
                                      easing := EasingKind.linear } })

/-- Wait time of a reaction in milliseconds (the source stores seconds). -/
def waitMs (r : Reaction) : ℚ := r.timeout * 1000

/-- Transition duration of a reaction in milliseconds; an instant cut has
no transition object and hence 0. -/
def transitionMs (r : Reaction) : ℚ :=
  match r.transition with
  | none => 0
  | some t => t.duration * 1000

/-- Outcome of one synthesis request as the UI sees it, together with the
produced artifacts. -/
structure SynthesisResult where
  success : Bool
  variants : List FrameNode
  reactions : List Reaction
  deriving DecidableEq

/-- The pure core of `createAnimationComponent` from code.ts: build the
variants, then register the prototyping reactions, then post a success
message. The catch branch that posts a failure is reachable only from
host document errors (node creation, font loading), which are outside the
core; no core path raises, so the core always reports success. -/
def createAnimationComponentCore (text : List Char)
    (animation : AnimationSettings) : SynthesisResult :=
  let variants := createAnimationVariants text animation
  let reactions := setupSimplePrototyping variants.length animation
  { success := true, variants := variants, reactions := reactions }

/-- Font size relative to the base font size 16 used by the plugin. -/
def relativeFontScale (node : FrameNode) : ℚ := node.fontSize / 16

/-- Splitting on single spaces and rejoining with single spaces gives back
the original string, exactly as in JS. -/
theorem joinSpace_splitSpace (s : List Char) : joinSpace (splitSpace s) = s := by
  induction s with
  | nil => rfl
  | cons c rest ih =>
    unfold splitSpace at ih ⊢
    unfold splitSpaceAux
    split
    · next hc =>
      subst hc
      show ' ' :: joinSpace ((splitSpaceAux rest).1 :: (splitSpaceAux rest).2) = ' ' :: rest
      rw [ih]
    · next hc =>
      rcases h2 : (splitSpaceAux rest).2 with _ | ⟨q, qs⟩
      · rw [h2] at ih
        show c :: (splitSpaceAux rest).1 = c :: rest
        rw [show (splitSpaceAux rest).1 = rest from ih]
      · rw [h2] at ih
        show c :: joinSpace ((splitSpaceAux rest).1 :: q :: qs) = c :: rest
        rw [ih]

/-- C1 fails on the code at empty text with the word unit: in JS the split
of the empty string on a space is one empty word, so the frame count is
2, not the claimed 1. -/
theorem claim1_counterexample :
    calculateFrameCount Style.typing TypeBy.word 1000 [] = 2 ∧
    calculateFrameCount Style.typing TypeBy.word 1000 [] ≠ 1 :=
  ⟨rfl, by decide⟩

/-- C1 (amended): for every style other than scale the frame count is
unitCount + 1, where unitCount is the character count for the letter unit
and the length of the single-space split for the word unit; for empty text
the letter unit gives frame count 1 but the word unit gives frame count 2,
because the split of the empty string is one empty word. -/
theorem claim1_frame_count (style : Style) (duration : ℚ) (text : List Char)
    (hs : style ≠ Style.scale) :
    calculateFrameCount style TypeBy.letter duration text = text.length + 1 ∧
    calculateFrameCount style TypeBy.word duration text = (splitSpace text).length + 1 ∧
    calculateFrameCount style TypeBy.letter duration [] = 1 ∧
    calculateFrameCount style TypeBy.word duration [] = 2 := by
  cases style <;> simp_all [calculateFrameCount, splitSpace, splitSpaceAux]

/-- Witness for the amended C1 at the typing style and a one-letter text. -/
theorem claim1_frame_count_witness :
    calculateFrameCount Style.typing TypeBy.letter 500 ['a'] = ['a'].length + 1 ∧
    calculateFrameCount Style.typing TypeBy.word 500 ['a'] = (splitSpace ['a']).length + 1 ∧
    calculateFrameCount Style.typing TypeBy.letter 500 [] = 1 ∧
    calculateFrameCount Style.typing TypeBy.word 500 [] = 2 :=
  claim1_frame_count Style.typing 500 ['a'] (by decide)

/-- C2: the scale style always produces exactly 2 frames for every text
and both reveal units; forward makes frame 0 invisible at the minimal
relative font scale and frame 1 fully visible at full scale, and
backwards swaps the two frame roles. -/
theorem claim2_scale_two_frames (typeBy : TypeBy) (duration : ℚ)
    (color text : List Char) :
    calculateFrameCount Style.scale typeBy duration text = 2 ∧
    ((createTextNodeForFrame text ⟨Style.scale, typeBy, Direction.forward, duration, color⟩ 0 2).opacity = 0 ∧
     relativeFontScale (createTextNodeForFrame text ⟨Style.scale, typeBy, Direction.forward, duration, color⟩ 0 2) = 1 / 16 ∧
     (createTextNodeForFrame text ⟨Style.scale, typeBy, Direction.forward, duration, color⟩ 1 2).opacity = 1 ∧
     relativeFontScale (createTextNodeForFrame text ⟨Style.scale, typeBy, Direction.forward, duration, color⟩ 1 2) = 1) ∧
    ((createTextNodeForFrame text ⟨Style.scale, typeBy, Direction.backwards, duration, color⟩ 0 2).opacity = 1 ∧
     relativeFontScale (createTextNodeForFrame text ⟨Style.scale, typeBy, Direction.backwards, duration, color⟩ 0 2) = 1 ∧
     (createTextNodeForFrame text ⟨Style.scale, typeBy, Direction.backwards, duration, color⟩ 1 2).opacity = 0 ∧
     relativeFontScale (createTextNodeForFrame text ⟨Style.scale, typeBy, Direction.backwards, duration, color⟩ 1 2) = 1 / 16) := by
  refine ⟨rfl, ⟨?_, ?_, ?_, ?_⟩, ⟨?_, ?_, ?_, ?_⟩⟩ <;>
    simp [createTextNodeForFrame, relativeFontScale]

/-- C3: with style typing, letter unit and forward direction, the visible
text of frame k is the length-k leading slice of the text, and the final
frame shows the full text. -/
theorem claim3_typing_letter_forward (text : List Char) (duration : ℚ)
    (color : List Char) (k : Nat) (hk : k ≤ text.length) :
    (createTextNodeForFrame text ⟨Style.typing, TypeBy.letter, Direction.forward, duration, color⟩ k
        (calculateFrameCount Style.typing TypeBy.letter duration text)).characters = text.take k ∧
    (createTextNodeForFrame text ⟨Style.typing, TypeBy.letter, Direction.forward, duration, color⟩ text.length
        (calculateFrameCount Style.typing TypeBy.letter duration text)).characters = text := by
  constructor <;> simp [createTextNodeForFrame, applyTypingEffect]

/-- Witness for C3 at text "Hi" and frame 1. -/
theorem claim3_witness :
    (createTextNodeForFrame ['H', 'i'] ⟨Style.typing, TypeBy.letter, Direction.forward, 1000, []⟩ 1
        (calculateFrameCount Style.typing TypeBy.letter 1000 ['H', 'i'])).characters = ['H', 'i'].take 1 ∧
    (createTextNodeForFrame ['H', 'i'] ⟨Style.typing, TypeBy.letter, Direction.forward, 1000, []⟩ (['H', 'i'] : List Char).length
        (calculateFrameCount Style.typing TypeBy.letter 1000 ['H', 'i'])).characters = ['H', 'i'] :=
  claim3_typing_letter_forward ['H', 'i'] 1000 [] 1 (by decide)

/-- C9: for the typing style, the backwards run shows at frame k exactly
the rightmost k units (characters or words) of the text in their original
order, the mirror image of the forward run showing the leftmost k units,
and the frame count is the same for both directions. -/
theorem claim9_typing_reverse (text : List Char) (k j : Nat)
    (hk : k ≤ text.length) (hj : j ≤ (splitSpace text).length) :
    applyTypingEffect text TypeBy.letter k Direction.backwards =
      text.drop (text.length - k) ∧
    applyTypingEffect text TypeBy.letter k Direction.forward = text.take k ∧
    applyTypingEffect text TypeBy.word j Direction.backwards =
      joinSpace ((splitSpace text).drop ((splitSpace text).length - j)) ∧
    applyTypingEffect text TypeBy.word j Direction.forward =
      joinSpace ((splitSpace text).take j) ∧
    ∀ (typeBy : TypeBy) (duration : ℚ) (color : List Char),
      (createAnimationVariants text ⟨Style.typing, typeBy, Direction.backwards, duration, color⟩).length =
        (createAnimationVariants text ⟨Style.typing, typeBy, Direction.forward, duration, color⟩).length := by
  refine ⟨?_, rfl, ?_, ?_, ?_⟩
  · by_cases h0 : k = 0
    · subst h0; simp [applyTypingEffect]
    · simp [applyTypingEffect, h0]
  · by_cases h0 : j = 0
    · subst h0; simp [applyTypingEffect, joinSpace]
    · simp [applyTypingEffect, h0]
  · by_cases h0 : j = 0
    · subst h0; simp [applyTypingEffect, joinSpace]
    · simp [applyTypingEffect, h0]
  · intro typeBy duration color
    simp [createAnimationVariants]

/-- Witness for C9 at text "a b", 2 letters, 1 word. -/
theorem claim9_witness :
    applyTypingEffect ['a', ' ', 'b'] TypeBy.letter 2 Direction.backwards =
      (['a', ' ', 'b'] : List Char).drop ((['a', ' ', 'b'] : List Char).length - 2) ∧
    applyTypingEffect ['a', ' ', 'b'] TypeBy.letter 2 Direction.forward =
      (['a', ' ', 'b'] : List Char).take 2 ∧
    applyTypingEffect ['a', ' ', 'b'] TypeBy.word 1 Direction.backwards =
      joinSpace ((splitSpace ['a', ' ', 'b']).drop ((splitSpace ['a', ' ', 'b']).length - 1)) ∧
    applyTypingEffect ['a', ' ', 'b'] TypeBy.word 1 Direction.forward =
      joinSpace ((splitSpace ['a', ' ', 'b']).take 1) ∧
    ∀ (typeBy : TypeBy) (duration : ℚ) (color : List Char),
      (createAnimationVariants ['a', ' ', 'b'] ⟨Style.typing, typeBy, Direction.backwards, duration, color⟩).length =
        (createAnimationVariants ['a', ' ', 'b'] ⟨Style.typing, typeBy, Direction.forward, duration, color⟩).length :=
  claim9_typing_reverse ['a', ' ', 'b'] 2 1 (by decide) (by decide)

/-- C10: for the typing style, with the frame count computed for typing,
frame 0 shows nothing and the last frame shows the original text exactly,
for both reveal units and both directions; for the word unit this uses
that the single-space split rejoined with single spaces reconstructs the
original string. -/
theorem claim10_typing_endpoints (text : List Char) (typeBy : TypeBy)
    (direction : Direction) (duration : ℚ) (color : List Char) :
    (createTextNodeForFrame text ⟨Style.typing, typeBy, direction, duration, color⟩ 0
        (calculateFrameCount Style.typing typeBy duration text)).characters = [] ∧
    (createTextNodeForFrame text ⟨Style.typing, typeBy, direction, duration, color⟩
        (calculateFrameCount Style.typing typeBy duration text - 1)
        (calculateFrameCount Style.typing typeBy duration text)).characters = text := by
  cases typeBy <;> cases direction
  · constructor <;> simp [createTextNodeForFrame, applyTypingEffect, calculateFrameCount]
  · constructor
    · simp [createTextNodeForFrame, applyTypingEffect]
    · rcases text with _ | ⟨a, as⟩
      · rfl
      · simp [createTextNodeForFrame, applyTypingEffect, calculateFrameCount]
  · constructor
    · simp [createTextNodeForFrame, applyTypingEffect]
    · have hwc : (splitSpace text).length ≠ 0 := by simp [splitSpace]
      simp [createTextNodeForFrame, applyTypingEffect, calculateFrameCount, hwc,
        joinSpace_splitSpace]
  · constructor
    · simp [createTextNodeForFrame, applyTypingEffect]
    · have hwc : (splitSpace text).length ≠ 0 := by simp [splitSpace]
      simp [createTextNodeForFrame, applyTypingEffect, calculateFrameCount, hwc,
        joinSpace_splitSpace]

/-- The characters of the example text "Hi there" used by the spec. -/
def hiThereText : List Char := ['H', 'i', ' ', 't', 'h', 'e', 'r', 'e']

/-- Scaling a maximum of rationals by a nonnegative factor distributes. -/
theorem max_mul_thousand (a b : ℚ) : max a b * 1000 = max (a * 1000) (b * 1000) := by
  rcases le_total a b with h | h
  · rw [max_eq_right h, max_eq_right (mul_le_mul_of_nonneg_right h (by norm_num))]
  · rw [max_eq_left h, max_eq_left (mul_le_mul_of_nonneg_right h (by norm_num))]

/-- The reactions produced on the spec example: text "Hi there", typing,
word unit, forward, 900 ms total. -/
theorem hiThere_reactions :
    setupSimplePrototyping (calculateFrameCount Style.typing TypeBy.word 900 hiThereText)
      ⟨Style.typing, TypeBy.word, Direction.forward, 900, []⟩ =
    [⟨0, 1, 3 / 10, none⟩, ⟨1, 2, 3 / 10, none⟩, ⟨2, 0, 3 / 10, none⟩] := by
  show setupSimplePrototyping 3 _ = _
  simp [setupSimplePrototyping, List.range_succ]
  norm_num

/-- C4: every timing entry of the typing style waits the per-edge share of
the total duration and transitions instantly (no transition object); on
the spec example, text "Hi there" with the word unit, forward direction
and 900 ms, there are 3 frames and 3 edges each waiting 300 ms with a 0 ms
transition. -/
theorem claim4_typing_timing (frameCount : Nat) (typeBy : TypeBy)
    (direction : Direction) (duration : ℚ) (color : List Char) (r : Reaction)
    (hr : r ∈ setupSimplePrototyping frameCount
      ⟨Style.typing, typeBy, direction, duration, color⟩) :
    (waitMs r = duration / (frameCount : ℚ) ∧ transitionMs r = 0 ∧
      r.transition = none) ∧
    ((setupSimplePrototyping
        (calculateFrameCount Style.typing TypeBy.word 900 hiThereText)
        ⟨Style.typing, TypeBy.word, Direction.forward, 900, []⟩).length = 3 ∧
      ∀ s ∈ setupSimplePrototyping
        (calculateFrameCount Style.typing TypeBy.word 900 hiThereText)
        ⟨Style.typing, TypeBy.word, Direction.forward, 900, []⟩,
        waitMs s = 300 ∧ transitionMs s = 0) := by
  refine ⟨?_, by rw [hiThere_reactions]; rfl, ?_⟩
  · unfold setupSimplePrototyping at hr
    by_cases h2 : frameCount < 2
    · rw [if_pos h2] at hr
      simp at hr
    · rw [if_neg h2] at hr
      simp only [List.mem_filterMap, List.mem_range] at hr
      obtain ⟨i, hi, hf⟩ := hr
      simp at hf
      rw [← hf]
      refine ⟨?_, rfl, rfl⟩
      show duration / (frameCount : ℚ) / 1000 * 1000 = duration / (frameCount : ℚ)
      rw [div_mul_cancel₀ _ (by norm_num : (1000 : ℚ) ≠ 0)]
  · rw [hiThere_reactions]
    intro s hs
    simp only [List.mem_cons, List.not_mem_nil, or_false] at hs
    rcases hs with rfl | rfl | rfl <;>
      exact ⟨by norm_num [waitMs], rfl⟩

/-- Witness for C4 on the spec example itself: the first edge of the
"Hi there" word-typing run. -/
theorem claim4_witness :
    (waitMs ⟨0, 1, 3 / 10, none⟩ = 900 / ((3 : Nat) : ℚ) ∧
      transitionMs ⟨0, 1, 3 / 10, none⟩ = 0 ∧
      (⟨0, 1, 3 / 10, none⟩ : Reaction).transition = none) ∧
    ((setupSimplePrototyping
        (calculateFrameCount Style.typing TypeBy.word 900 hiThereText)
        ⟨Style.typing, TypeBy.word, Direction.forward, 900, []⟩).length = 3 ∧
      ∀ s ∈ setupSimplePrototyping
        (calculateFrameCount Style.typing TypeBy.word 900 hiThereText)
        ⟨Style.typing, TypeBy.word, Direction.forward, 900, []⟩,
        waitMs s = 300 ∧ transitionMs s = 0) :=
  claim4_typing_timing 3 TypeBy.word Direction.forward 900 [] ⟨0, 1, 3 / 10, none⟩
    (by rw [show setupSimplePrototyping 3 ⟨Style.typing, TypeBy.word, Direction.forward, 900, []⟩ =
          [⟨0, 1, 3 / 10, none⟩, ⟨1, 2, 3 / 10, none⟩, ⟨2, 0, 3 / 10, none⟩] from
          hiThere_reactions]
        simp)

/-- C5: every timing entry of the dissolve family (neither scale nor
typing) has a transition of max(timePerEdge * 0.2, 50) ms of kind
dissolve, and waits max(timePerEdge - transitionMs, 10) ms. -/
theorem claim5_dissolve_timing (frameCount : Nat) (animation : AnimationSettings)
    (r : Reaction) (hs : animation.style ≠ Style.scale)
    (ht : animation.style ≠ Style.typing)
    (hr : r ∈ setupSimplePrototyping frameCount animation) :
    transitionMs r = max (animation.duration / (frameCount : ℚ) * 0.2) 50 ∧
    waitMs r = max (animation.duration / (frameCount : ℚ) - transitionMs r) 10 ∧
    ∃ t, r.transition = some t ∧ t.kind = TransitionKind.dissolve := by
  unfold setupSimplePrototyping at hr
  by_cases h2 : frameCount < 2
  · rw [if_pos h2] at hr
    simp at hr
  · rw [if_neg h2] at hr
    simp only [List.mem_filterMap, List.mem_range] at hr
    obtain ⟨i, hi, hf⟩ := hr
    simp [hs, ht] at hf
    rw [← hf]
    have htr : transitionMs
        (⟨i, (i + 1) % frameCount,
          max (animation.duration / (frameCount : ℚ) / 1000 -
            max (animation.duration / (frameCount : ℚ) * 0.2) 50 / 1000) 0.01,
          some ⟨TransitionKind.dissolve,
            max (animation.duration / (frameCount : ℚ) * 0.2) 50 / 1000,
            EasingKind.linear⟩⟩ : Reaction) =
        max (animation.duration / (frameCount : ℚ) * 0.2) 50 := by
      show max (animation.duration / (frameCount : ℚ) * 0.2) 50 / 1000 * 1000 =
        max (animation.duration / (frameCount : ℚ) * 0.2) 50
      rw [div_mul_cancel₀ _ (by norm_num : (1000 : ℚ) ≠ 0)]
    refine ⟨htr, ?_, ⟨_, rfl, rfl⟩⟩
    rw [htr]
    show max (animation.duration / (frameCount : ℚ) / 1000 -
        max (animation.duration / (frameCount : ℚ) * 0.2) 50 / 1000) 0.01 * 1000 =
      max (animation.duration / (frameCount : ℚ) -
        max (animation.duration / (frameCount : ℚ) * 0.2) 50) 10
    rw [max_mul_thousand]
    congr 1
    · field_simp
      ring
    · norm_num

/-- The reactions produced for a 2-frame fade-in run with 1000 ms. -/
theorem fadeIn_reactions :
    setupSimplePrototyping 2 ⟨Style.fadeIn, TypeBy.word, Direction.forward, 1000, []⟩ =
    [⟨0, 1, 2 / 5, some ⟨TransitionKind.dissolve, 1 / 10, EasingKind.linear⟩⟩,
     ⟨1, 0, 2 / 5, some ⟨TransitionKind.dissolve, 1 / 10, EasingKind.linear⟩⟩] := by
  simp [setupSimplePrototyping, List.range_succ]
  norm_num [max_def]

/-- Witness for C5 at the fade-in style, 2 frames and 1000 ms. -/
theorem claim5_witness :
    transitionMs ⟨0, 1, 2 / 5, some ⟨TransitionKind.dissolve, 1 / 10, EasingKind.linear⟩⟩ =
      max ((1000 : ℚ) / ((2 : Nat) : ℚ) * 0.2) 50 ∧
    waitMs ⟨0, 1, 2 / 5, some ⟨TransitionKind.dissolve, 1 / 10, EasingKind.linear⟩⟩ =
      max ((1000 : ℚ) / ((2 : Nat) : ℚ) -
        transitionMs ⟨0, 1, 2 / 5, some ⟨TransitionKind.dissolve, 1 / 10, EasingKind.linear⟩⟩) 10 ∧
    ∃ t, (⟨0, 1, 2 / 5, some ⟨TransitionKind.dissolve, 1 / 10, EasingKind.linear⟩⟩ : Reaction).transition = some t ∧
      t.kind = TransitionKind.dissolve :=
  claim5_dissolve_timing 2 ⟨Style.fadeIn, TypeBy.word, Direction.forward, 1000, []⟩
    ⟨0, 1, 2 / 5, some ⟨TransitionKind.dissolve, 1 / 10, EasingKind.linear⟩⟩
    (by decide) (by decide) (by rw [fadeIn_reactions]; simp)

/-- C6: the scale style builds the single terminal edge 0 to 1, while
every other style builds exactly one outgoing edge per frame, from frame i
to frame (i+1) mod frameCount, a full cycle. -/
theorem claim6_reaction_graph (frameCount : Nat) (animation : AnimationSettings)
    (typeBy : TypeBy) (direction : Direction) (duration : ℚ)
    (color text : List Char) (hs : animation.style ≠ Style.scale)
    (h2 : 2 ≤ frameCount) :
    (setupSimplePrototyping
        (calculateFrameCount Style.scale typeBy duration text)
        ⟨Style.scale, typeBy, direction, duration, color⟩).map
        (fun r => (r.fromFrame, r.destinationId)) = [(0, 1)] ∧
    (setupSimplePrototyping frameCount animation).map
        (fun r => (r.fromFrame, r.destinationId)) =
      (List.range frameCount).map (fun i => (i, (i + 1) % frameCount)) := by
  constructor
  · show (setupSimplePrototyping 2
        ⟨Style.scale, typeBy, direction, duration, color⟩).map
        (fun r => (r.fromFrame, r.destinationId)) = [(0, 1)]
    simp [setupSimplePrototyping, List.range_succ]
  · simp only [setupSimplePrototyping, if_neg (by omega : ¬frameCount < 2)]
    generalize List.range frameCount = l
    induction l with
    | nil => rfl
    | cons a as ih =>
      by_cases hty : animation.style = Style.typing
      · simpa [hs, hty, List.filterMap_cons] using ih
      · simpa [hs, hty, List.filterMap_cons] using ih

/-- Witness for C6 at the fade-in style with 3 frames. -/
theorem claim6_witness :
    (setupSimplePrototyping
        (calculateFrameCount Style.scale TypeBy.word 500 ['A', 'B'])
        ⟨Style.scale, TypeBy.word, Direction.forward, 500, []⟩).map
        (fun r => (r.fromFrame, r.destinationId)) = [(0, 1)] ∧
    (setupSimplePrototyping 3 ⟨Style.fadeIn, TypeBy.word, Direction.forward, 900, []⟩).map
        (fun r => (r.fromFrame, r.destinationId)) =
      (List.range 3).map (fun i => (i, (i + 1) % 3)) :=
  claim6_reaction_graph 3 ⟨Style.fadeIn, TypeBy.word, Direction.forward, 900, []⟩
    TypeBy.word Direction.forward 500 [] ['A', 'B'] (by decide) (by decide)

/-- C7 fails on the code: with empty text, letter unit and typing style
the frame count is 1, yet the synthesis neither throws nor posts a
failure; prototyping is silently skipped (no reactions) and the caller is
sent success. -/
theorem claim7_counterexample :
    (createAnimationComponentCore []
      ⟨Style.typing, TypeBy.letter, Direction.forward, 1000, []⟩).variants.length = 1 ∧
    (createAnimationComponentCore []
      ⟨Style.typing, TypeBy.letter, Direction.forward, 1000, []⟩).success = true ∧
    (createAnimationComponentCore []
      ⟨Style.typing, TypeBy.letter, Direction.forward, 1000, []⟩).reactions = [] := by
  refine ⟨rfl, rfl, rfl⟩

/-- C7 (amended): whenever the computed frame count is below 2, the graph
builder returns early and registers no transition edges, and the caller
still receives a success result; there is no rejection and no
insufficient-frames error anywhere in the core. -/
theorem claim7_no_rejection (text : List Char) (animation : AnimationSettings)
    (h : (createAnimationComponentCore text animation).variants.length < 2) :
    (createAnimationComponentCore text animation).reactions = [] ∧
    (createAnimationComponentCore text animation).success = true := by
  refine ⟨?_, rfl⟩
  have h2 : (createAnimationVariants text animation).length < 2 := h
  show setupSimplePrototyping (createAnimationVariants text animation).length animation = []
  unfold setupSimplePrototyping
  rw [if_pos h2]

/-- Witness for the amended C7 at empty text with the letter unit. -/
theorem claim7_witness :
    (createAnimationComponentCore []
      ⟨Style.typing, TypeBy.letter, Direction.forward, 1000, []⟩).reactions = [] ∧
    (createAnimationComponentCore []
      ⟨Style.typing, TypeBy.letter, Direction.forward, 1000, []⟩).success = true :=
  claim7_no_rejection [] ⟨Style.typing, TypeBy.letter, Direction.forward, 1000, []⟩
    (by decide)

/-- C8 fails on the code: for rotate, word unit, backwards, frame 0 of
text "a b c" (4 frames), the first phase computes opacity as reverse
progress plus 0.1, giving 1.1, outside [0, 1]. -/
theorem claim8_counterexample :
    (createTextNodeForFrame ['a', ' ', 'b', ' ', 'c']
        ⟨Style.rotate, TypeBy.word, Direction.backwards, 1000, []⟩ 0
        (calculateFrameCount Style.rotate TypeBy.word 1000
          ['a', ' ', 'b', ' ', 'c'])).opacity = 11 / 10 ∧
    ¬((createTextNodeForFrame ['a', ' ', 'b', ' ', 'c']
        ⟨Style.rotate, TypeBy.word, Direction.backwards, 1000, []⟩ 0
        (calculateFrameCount Style.rotate TypeBy.word 1000
          ['a', ' ', 'b', ' ', 'c'])).opacity ≤ 1) := by
  have h : (createTextNodeForFrame ['a', ' ', 'b', ' ', 'c']
      ⟨Style.rotate, TypeBy.word, Direction.backwards, 1000, []⟩ 0
      (calculateFrameCount Style.rotate TypeBy.word 1000
        ['a', ' ', 'b', ' ', 'c'])).opacity = 11 / 10 := by
    show (applyWordRotateEffect ['a', ' ', 'b', ' ', 'c'] 0 4
        Direction.backwards).opacity = 11 / 10
    norm_num [applyWordRotateEffect]
  exact ⟨h, by rw [h]; norm_num⟩

/-- Frame progress is nonnegative once at least 2 frames exist. -/
theorem progress_nonneg (k n : Nat) (h2 : 2 ≤ n) :
    0 ≤ (k : ℚ) / ((n : ℚ) - 1) := by
  apply div_nonneg (by positivity)
  have hn : (2 : ℚ) ≤ (n : ℚ) := by exact_mod_cast h2
  linarith

/-- Frame progress is at most 1 for an in-range frame index. -/
theorem progress_le_one (k n : Nat) (h2 : 2 ≤ n) (hk : k < n) :
    (k : ℚ) / ((n : ℚ) - 1) ≤ 1 := by
  have hn : (2 : ℚ) ≤ (n : ℚ) := by exact_mod_cast h2
  rw [div_le_one (by linarith)]
  have hk1 : (k : ℚ) + 1 ≤ (n : ℚ) := by exact_mod_cast hk
  linarith

/-- The letter-granularity opacity is always 1 or 0.3, hence in [0, 1]. -/
theorem applyLetterOpacity_bounds (text : List Char) (frameIndex totalFrames : Nat)
    (direction : Direction) :
    0 ≤ applyLetterOpacity text frameIndex totalFrames direction ∧
    applyLetterOpacity text frameIndex totalFrames direction ≤ 1 := by
  simp only [applyLetterOpacity]
  split_ifs <;> norm_num

/-- The letter rotate effect keeps opacity in [0, 1] and font size 16. -/
theorem applyLetterRotateEffect_bounds (text : List Char) (k n : Nat)
    (direction : Direction) (h2 : 2 ≤ n) (hk : k < n) :
    (0 ≤ (applyLetterRotateEffect text k n direction).opacity ∧
      (applyLetterRotateEffect text k n direction).opacity ≤ 1) ∧
    (applyLetterRotateEffect text k n direction).fontSize = 16 := by
  have hp0 := progress_nonneg k n h2
  have hp1 := progress_le_one k n h2 hk
  cases direction <;> simp only [applyLetterRotateEffect] <;>
    split_ifs with h <;> dsimp only <;> refine ⟨⟨?_, ?_⟩, rfl⟩
  · linarith
  · linarith
  · exact le_min (by norm_num) (by linarith)
  · exact min_le_left _ _
  · linarith
  · linarith
  · exact le_max_of_le_left (by norm_num)
  · exact max_le (by norm_num) (by linarith)

/-- The word rotate effect keeps opacity in [0, 1.2] and font size 16. -/
theorem applyWordRotateEffect_bounds (text : List Char) (k n : Nat)
    (direction : Direction) (h2 : 2 ≤ n) (hk : k < n) :
    (0 ≤ (applyWordRotateEffect text k n direction).opacity ∧
      (applyWordRotateEffect text k n direction).opacity ≤ 1.2) ∧
    (applyWordRotateEffect text k n direction).fontSize = 16 := by
  have hp0 := progress_nonneg k n h2
  have hp1 := progress_le_one k n h2 hk
  cases direction <;> simp only [applyWordRotateEffect] <;>
    split_ifs with h1 h2a h3 <;> dsimp only <;> refine ⟨⟨?_, ?_⟩, rfl⟩
  · linarith
  · linarith
  · have hsp0 : 0 ≤ ((k : ℚ) / ((n : ℚ) - 1) - 0.3) / 0.4 :=
      div_nonneg (by linarith) (by norm_num)
    linarith
  · have hsp1 : ((k : ℚ) / ((n : ℚ) - 1) - 0.3) / 0.4 ≤ 1 :=
      (div_le_one (by norm_num)).mpr (by linarith)
    linarith
  · exact le_min (by norm_num) (by linarith)
  · exact (min_le_left _ _).trans (by norm_num)
  · linarith
  · linarith
  · exact le_max_of_le_left (by norm_num)
  · have hsp1 : (1 - (k : ℚ) / ((n : ℚ) - 1) - 0.3) / 0.4 ≤ 1 :=
      (div_le_one (by norm_num)).mpr (by linarith)
    exact max_le (by norm_num) (by linarith)
  · exact div_nonneg (by linarith) (by norm_num)
  · have : (1 - (k : ℚ) / ((n : ℚ) - 1)) / 0.3 ≤ 1 :=
      (div_le_one (by norm_num)).mpr (by linarith)
    linarith
  · norm_num
  · norm_num

/-- Every code path assigns the font size 1 or 16. -/
theorem createTextNodeForFrame_fontSize (text : List Char)
    (animation : AnimationSettings) (k n : Nat) :
    (createTextNodeForFrame text animation k n).fontSize = 1 ∨
    (createTextNodeForFrame text animation k n).fontSize = 16 := by
  rcases animation with ⟨style, typeBy, direction, duration, color⟩
  cases style <;> cases typeBy <;> cases direction <;>
    simp [createTextNodeForFrame, applyLetterRotateEffect,
      applyWordRotateEffect] <;>
    split_ifs <;> simp

/-- C8 (amended): for every configuration whose computed frame count is at
least 2 and every in-range frame index, the opacity lies in [0, 1.2] (not
[0, 1]: the word rotate backwards branches add 0.1 to the reverse progress
and scale a ratio by 1.2, so 1 can be exceeded) and the relative font
scale lies in (0, 1]. -/
theorem claim8_bounds (text : List Char) (animation : AnimationSettings)
    (k : Nat)
    (h2 : 2 ≤ calculateFrameCount animation.style animation.typeBy
      animation.duration text)
    (hk : k < calculateFrameCount animation.style animation.typeBy
      animation.duration text) :
    (0 ≤ (createTextNodeForFrame text animation k
        (calculateFrameCount animation.style animation.typeBy
          animation.duration text)).opacity ∧
      (createTextNodeForFrame text animation k
        (calculateFrameCount animation.style animation.typeBy
          animation.duration text)).opacity ≤ 1.2) ∧
    (0 < relativeFontScale (createTextNodeForFrame text animation k
        (calculateFrameCount animation.style animation.typeBy
          animation.duration text)) ∧
      relativeFontScale (createTextNodeForFrame text animation k
        (calculateFrameCount animation.style animation.typeBy
          animation.duration text)) ≤ 1) := by
  refine ⟨?_, ?_⟩
  · rcases animation with ⟨style, typeBy, direction, duration, color⟩
    dsimp only at h2 hk ⊢
    cases style
    · exact ⟨show (0 : ℚ) ≤ 1 by norm_num, show (1 : ℚ) ≤ 1.2 by norm_num⟩
    · cases typeBy
      · have hb := applyLetterOpacity_bounds text k
          (calculateFrameCount Style.fadeIn TypeBy.letter duration text)
          direction
        exact ⟨hb.1, hb.2.trans (by norm_num)⟩
      · have hp0 := progress_nonneg k
          (calculateFrameCount Style.fadeIn TypeBy.word duration text) h2
        constructor
        · exact le_min (mul_nonneg hp0 (by norm_num)) (by norm_num)
        · exact (min_le_right _ _).trans (by norm_num)
    · cases typeBy
      · have hb := applyLetterOpacity_bounds text
          (calculateFrameCount Style.fadeOut TypeBy.letter duration text - k - 1)
          (calculateFrameCount Style.fadeOut TypeBy.letter duration text)
          direction
        exact ⟨hb.1, hb.2.trans (by norm_num)⟩
      · have hp0 := progress_nonneg k
          (calculateFrameCount Style.fadeOut TypeBy.word duration text) h2
        constructor
        · exact le_max_right _ _
        · refine max_le ?_ (by norm_num)
          have hmul : 0 ≤ (k : ℚ) /
              ((calculateFrameCount Style.fadeOut TypeBy.word duration text : ℚ) - 1)
              * 1.2 := mul_nonneg hp0 (by norm_num)
          linarith
    · exact ⟨show (0 : ℚ) ≤ 1 by norm_num, show (1 : ℚ) ≤ 1.2 by norm_num⟩
    · exact ⟨show (0 : ℚ) ≤ 1 by norm_num, show (1 : ℚ) ≤ 1.2 by norm_num⟩
    · exact ⟨show (0 : ℚ) ≤ 1 by norm_num, show (1 : ℚ) ≤ 1.2 by norm_num⟩
    · exact ⟨show (0 : ℚ) ≤ 1 by norm_num, show (1 : ℚ) ≤ 1.2 by norm_num⟩
    · cases direction <;> by_cases hk0 : k = 0 <;>
        simp [createTextNodeForFrame, hk0] <;> norm_num
    · cases typeBy
      · have hb := applyLetterRotateEffect_bounds text k
          (calculateFrameCount Style.rotate TypeBy.letter duration text)
          direction h2 hk
        exact ⟨hb.1.1, hb.1.2.trans (by norm_num)⟩
      · exact (applyWordRotateEffect_bounds text k
          (calculateFrameCount Style.rotate TypeBy.word duration text)
          direction h2 hk).1
  · rcases createTextNodeForFrame_fontSize text animation k
        (calculateFrameCount animation.style animation.typeBy
          animation.duration text) with hf | hf <;>
      rw [relativeFontScale, hf] <;> norm_num

/-- Witness for the amended C8 at a one-letter typing configuration. -/
theorem claim8_witness :
    (0 ≤ (createTextNodeForFrame ['a']
        ⟨Style.typing, TypeBy.letter, Direction.forward, 1000, []⟩ 0
        (calculateFrameCount Style.typing TypeBy.letter 1000 ['a'])).opacity ∧
      (createTextNodeForFrame ['a']
        ⟨Style.typing, TypeBy.letter, Direction.forward, 1000, []⟩ 0
        (calculateFrameCount Style.typing TypeBy.letter 1000 ['a'])).opacity ≤ 1.2) ∧
    (0 < relativeFontScale (createTextNodeForFrame ['a']
        ⟨Style.typing, TypeBy.letter, Direction.forward, 1000, []⟩ 0
        (calculateFrameCount Style.typing TypeBy.letter 1000 ['a'])) ∧
      relativeFontScale (createTextNodeForFrame ['a']
        ⟨Style.typing, TypeBy.letter, Direction.forward, 1000, []⟩ 0
        (calculateFrameCount Style.typing TypeBy.letter 1000 ['a'])) ≤ 1) :=
  claim8_bounds ['a'] ⟨Style.typing, TypeBy.letter, Direction.forward, 1000, []⟩ 0
    (by decide) (by decide)

end TextFx
